import Mathlib

/-!
Shallow embedding of the two WebSocket relay implementations in the
outbound-agent repository (file `src/outbound.js` and file
`src/unnamed/part_000`).  Each per-call session is a closure over four
mutable variables (`streamSid`, `callSid`, `elevenLabsWs`,
`customParameters`); the embedding makes that state explicit and turns
each event callback into a step function from state and event to new
state plus the frames sent on the two connections.  Suffix `A` refers to
`src/outbound.js`, suffix `B` to `src/unnamed/part_000`.
-/

namespace OutboundRelay

/-- JavaScript string truthiness for an optional string: `undefined`,
`null` and the empty string are falsy. -/
def truthyS : Option String → Bool
  | none => false
  | some s => s ≠ ""

/-- JavaScript `a || d` for an optional string `a` and a default `d`: the
default is used when `a` is `undefined`, `null` or the empty string. -/
def jsOr (a : Option String) (d : String) : String :=
  match a with
  | none => d
  | some s => if s = "" then d else s

/-- JavaScript `a || b` for two optional strings, as in the payload
expression `message.audio?.chunk || message.audio_event?.audio_base_64`;
the result may still be `undefined` (`none`). -/
def jsOrOpt (a b : Option String) : Option String :=
  match a with
  | none => b
  | some s => if s = "" then b else some s

/-- The `customParameters` object delivered by the telephony start event:
optional `prompt` and `first_message` fields. -/
structure Params where
  prompt : Option String
  first_message : Option String
  deriving DecidableEq, Repr

/-- Per-session mutable variables of the media-stream handler:
`streamSid`, `callSid` and `customParameters`, all initially `null`. -/
structure Session where
  streamSid : Option String
  callSid : Option String
  customParameters : Option Params
  deriving DecidableEq, Repr

/-- Ready state of the agent-side WebSocket, following the semantics of
the `ws` npm library. -/
inductive WsState
  | CONNECTING
  | OPEN
  | CLOSING
  | CLOSED
  deriving DecidableEq, Repr

/-- The `elevenLabsWs` variable: `null` until `getSignedUrl` resolves and
the `WebSocket` is constructed, then a socket with a ready state. -/
inductive AgentConn
  | noConn
  | conn (st : WsState)
  deriving DecidableEq, Repr

/-- Semantics of calling close on a `ws` socket: closing a socket that is
still `CONNECTING` aborts the handshake (its open event never fires),
closing an `OPEN` socket starts the closing handshake, and calling close
on a `CLOSING` or `CLOSED` socket is a no-op. -/
def wsClose : WsState → WsState
  | .CONNECTING => .CLOSING
  | .OPEN => .CLOSING
  | .CLOSING => .CLOSING
  | .CLOSED => .CLOSED

/-- Complete state of one call session: the three session variables, the
agent connection, and whether the telephony socket is still open. -/
structure ConnState where
  session : Session
  agent : AgentConn
  telOpen : Bool
  deriving DecidableEq, Repr

/-- State at the moment the telephony stream connects: all session
variables `null`, no agent socket, telephony socket open. -/
def init : ConnState :=
  { session := ⟨none, none, none⟩, agent := .noConn, telOpen := true }

/-- A parsed telephony frame, discriminated by the `event` field. -/
inductive TelMsg
  | start (streamSid callSid : String) (customParameters : Option Params)
  | media (payload : String)
  | stop
  | otherEvent (event : String)
  deriving DecidableEq, Repr

/-- A parsed agent frame, discriminated by the `type` field.  For
`audioMsg`, `chunk` is `message.audio?.chunk` and `audio_base_64` is
`message.audio_event?.audio_base_64`; for `ping`, `event_id` is
`message.ping_event?.event_id`. -/
inductive AgentMsg
  | audioMsg (chunk audio_base_64 : Option String)
  | ping (event_id : Option Nat)
  | conversation_initiation_metadata
  | agent_response (text : Option String)
  | user_transcript (text : Option String)
  | otherType (ty : String)
  deriving DecidableEq, Repr

/-- An occurrence delivered to the callbacks of one session.  A `tel` or
`agentMsg` carrying `none` is a frame on which `JSON.parse` throws
(malformed).  `wsCreated` is the construction of the agent `WebSocket`
after `getSignedUrl` resolves; `wsOpen` and `wsClosed` are the open and
close events of the agent socket; `telClose` and `telError` are the close
and error events of the telephony socket. -/
inductive Ev
  | tel (m : Option TelMsg)
  | telClose
  | telError
  | wsCreated
  | wsOpen
  | agentMsg (m : Option AgentMsg)
  | wsClosed
  deriving DecidableEq, Repr

/-- A frame sent on the agent connection. -/
inductive AgentOut
  | initConfig (prompt first_message : String)
  | userAudioChunk (payload : String)
  | pong (event_id : Nat)
  deriving DecidableEq, Repr

/-- A media frame sent on the telephony connection, carrying the stream
identifier and the audio payload.  The payload is optional because
`src/outbound.js` emits the frame even when both source fields are
absent (the JSON field is then `undefined`). -/
structure TelOut where
  streamSid : String
  payload : Option String
  deriving DecidableEq, Repr

/-- Result of processing one occurrence: the new state and the frames
sent on each connection, in emission order. -/
structure StepOut where
  state : ConnState
  toAgent : List AgentOut
  toTel : List TelOut
  deriving DecidableEq, Repr

/-- Fallback prompt in `src/outbound.js`. -/
def promptDefaultA : String := "You are Gary from the phone store."

/-- Fallback first message in `src/outbound.js`. -/
def firstDefaultA : String := "Hey there! How can I help you today?"

/-- Fallback prompt in `src/unnamed/part_000`. -/
def promptDefaultB : String := "Hello! How can I help?"

/-- Fallback first message in `src/unnamed/part_000`. -/
def firstDefaultB : String := "Hi there!"

/-- The `initialConfig` frame built by the agent open handler of
`src/outbound.js`: `customParameters?.prompt` and
`customParameters?.first_message`, each with the JavaScript
or-default fallback. -/
def initConfigA (cp : Option Params) : AgentOut :=
  .initConfig (jsOr (cp.bind Params.prompt) promptDefaultA)
    (jsOr (cp.bind Params.first_message) firstDefaultA)

/-- The `initialConfig` frame built by the agent open handler of
`src/unnamed/part_000`: same shape, different fallback strings. -/
def initConfigB (cp : Option Params) : AgentOut :=
  .initConfig (jsOr (cp.bind Params.prompt) promptDefaultB)
    (jsOr (cp.bind Params.first_message) firstDefaultB)

/-- Telephony message handler of `src/outbound.js`: the switch over the
`event` field.  A start event assigns the three session variables; a
media event forwards `user_audio_chunk` only when the agent socket
exists and its ready state is `OPEN`; a stop event calls close on the
agent socket whenever the socket exists; a parse failure is caught and
only logged. -/
def telStepA (s : ConnState) : Option TelMsg → StepOut
  | none => ⟨s, [], []⟩
  | some (.start sid csid cp) =>
      ⟨{ s with session := ⟨some sid, some csid, cp⟩ }, [], []⟩
  | some (.media p) =>
      if s.agent = .conn .OPEN then ⟨s, [.userAudioChunk p], []⟩ else ⟨s, [], []⟩
  | some .stop =>
      match s.agent with
      | .noConn => ⟨s, [], []⟩
      | .conn st => ⟨{ s with agent := .conn (wsClose st) }, [], []⟩
  | some (.otherEvent _) => ⟨s, [], []⟩

/-- Telephony message handler of `src/unnamed/part_000`: identical to
`src/outbound.js` except that a stop event closes the agent socket only
when its ready state is `OPEN`. -/
def telStepB (s : ConnState) : Option TelMsg → StepOut
  | none => ⟨s, [], []⟩
  | some (.start sid csid cp) =>
      ⟨{ s with session := ⟨some sid, some csid, cp⟩ }, [], []⟩
  | some (.media p) =>
      if s.agent = .conn .OPEN then ⟨s, [.userAudioChunk p], []⟩ else ⟨s, [], []⟩
  | some .stop =>
      if s.agent = .conn .OPEN then ⟨{ s with agent := .conn .CLOSING }, [], []⟩
      else ⟨s, [], []⟩
  | some (.otherEvent _) => ⟨s, [], []⟩

/-- Agent message handler of `src/outbound.js`: the switch over the
`type` field.  It assigns no session variable, so it only produces
frames: an audio message emits a telephony media frame when `streamSid`
is truthy, with the payload taken from the primary chunk field with the
JavaScript or-fallback to the variant field; a ping emits a pong when
`message.ping_event?.event_id` is truthy; every other type only logs, and
a parse failure is caught and only logged. -/
def agentStepA (s : ConnState) : Option AgentMsg → List AgentOut × List TelOut
  | none => ([], [])
  | some (.audioMsg c ab) =>
      if truthyS s.session.streamSid then
        match s.session.streamSid with
        | some sid => ([], [⟨sid, jsOrOpt c ab⟩])
        | none => ([], [])
      else ([], [])
  | some (.ping id?) =>
      match id? with
      | some n => if n ≠ 0 then ([.pong n], []) else ([], [])
      | none => ([], [])
  | some .conversation_initiation_metadata => ([], [])
  | some (.agent_response _) => ([], [])
  | some (.user_transcript _) => ([], [])
  | some (.otherType _) => ([], [])

/-- Agent message handler of `src/unnamed/part_000`: an audio message
emits a telephony media frame only when both `streamSid` and the primary
chunk field are truthy, with the payload taken from the chunk field;
there is no ping case (a ping falls to the default branch, which only
logs); every other type only logs. -/
def agentStepB (s : ConnState) : Option AgentMsg → List AgentOut × List TelOut
  | none => ([], [])
  | some (.audioMsg c _) =>
      if truthyS s.session.streamSid && truthyS c then
        match s.session.streamSid, c with
        | some sid, some chunk => ([], [⟨sid, some chunk⟩])
        | _, _ => ([], [])
      else ([], [])
  | some (.ping _) => ([], [])
  | some .conversation_initiation_metadata => ([], [])
  | some (.agent_response _) => ([], [])
  | some (.user_transcript _) => ([], [])
  | some (.otherType _) => ([], [])

/-- One occurrence processed by the handlers of `src/outbound.js`.
`wsCreated` sets `elevenLabsWs` to a `CONNECTING` socket; `wsOpen`
(which the `ws` library fires only on a `CONNECTING` socket) moves it to
`OPEN` and sends the `initialConfig` frame built from the
`customParameters` visible at that moment; `wsClosed` marks the socket
`CLOSED` (the registered handler only logs).  The telephony close event
has no registered handler at all, and the telephony error handler is
`console.error`, so neither touches the session or the agent socket. -/
def stepA (s : ConnState) : Ev → StepOut
  | .tel m => telStepA s m
  | .telClose => ⟨{ s with telOpen := false }, [], []⟩
  | .telError => ⟨s, [], []⟩
  | .wsCreated =>
      match s.agent with
      | .noConn => ⟨{ s with agent := .conn .CONNECTING }, [], []⟩
      | .conn _ => ⟨s, [], []⟩
  | .wsOpen =>
      match s.agent with
      | .conn .CONNECTING =>
          ⟨{ s with agent := .conn .OPEN },
            [initConfigA s.session.customParameters], []⟩
      | _ => ⟨s, [], []⟩
  | .agentMsg m => ⟨s, (agentStepA s m).1, (agentStepA s m).2⟩
  | .wsClosed =>
      match s.agent with
      | .noConn => ⟨s, [], []⟩
      | .conn _ => ⟨{ s with agent := .conn .CLOSED }, [], []⟩

/-- One occurrence processed by the handlers of `src/unnamed/part_000`;
same structure as `stepA` with the message handlers and fallback strings
of that file.  Its telephony socket likewise has no close handler, and
its error handler only logs. -/
def stepB (s : ConnState) : Ev → StepOut
  | .tel m => telStepB s m
  | .telClose => ⟨{ s with telOpen := false }, [], []⟩
  | .telError => ⟨s, [], []⟩
  | .wsCreated =>
      match s.agent with
      | .noConn => ⟨{ s with agent := .conn .CONNECTING }, [], []⟩
      | .conn _ => ⟨s, [], []⟩
  | .wsOpen =>
      match s.agent with
      | .conn .CONNECTING =>
          ⟨{ s with agent := .conn .OPEN },
            [initConfigB s.session.customParameters], []⟩
      | _ => ⟨s, [], []⟩
  | .agentMsg m => ⟨s, (agentStepB s m).1, (agentStepB s m).2⟩
  | .wsClosed =>
      match s.agent with
      | .noConn => ⟨s, [], []⟩
      | .conn _ => ⟨{ s with agent := .conn .CLOSED }, [], []⟩

/-- Run the handlers of `src/outbound.js` over a sequence of
occurrences, concatenating the frames each step emits, in order. -/
def runA (s : ConnState) : List Ev → StepOut
  | [] => ⟨s, [], []⟩
  | e :: es =>
      let o := stepA s e
      let r := runA o.state es
      ⟨r.state, o.toAgent ++ r.toAgent, o.toTel ++ r.toTel⟩

/-- Run the handlers of `src/unnamed/part_000` over a sequence of
occurrences. -/
def runB (s : ConnState) : List Ev → StepOut
  | [] => ⟨s, [], []⟩
  | e :: es =>
      let o := stepB s e
      let r := runB o.state es
      ⟨r.state, o.toAgent ++ r.toAgent, o.toTel ++ r.toTel⟩

/-- Whether the agent socket exists and is in the `OPEN` ready state. -/
def isOpenC : AgentConn → Bool
  | .conn .OPEN => true
  | _ => false

/-- Whether the agent socket is past its open phase for good
(`CLOSING` or `CLOSED`); no event brings such a socket back to `OPEN`. -/
def dead : AgentConn → Bool
  | .conn .CLOSING => true
  | .conn .CLOSED => true
  | _ => false

/-- Number of steps of a run of `src/outbound.js` at which the agent
connection leaves the `OPEN` state (the connection gets closed). -/
def closeCountA (s : ConnState) : List Ev → Nat
  | [] => 0
  | e :: es =>
      (if isOpenC s.agent && !isOpenC (stepA s e).state.agent then 1 else 0)
        + closeCountA (stepA s e).state es

/-- Number of steps of a run of `src/unnamed/part_000` at which the
agent connection leaves the `OPEN` state. -/
def closeCountB (s : ConnState) : List Ev → Nat
  | [] => 0
  | e :: es =>
      (if isOpenC s.agent && !isOpenC (stepB s e).state.agent then 1 else 0)
        + closeCountB (stepB s e).state es

theorem runA_append (s : ConnState) (xs ys : List Ev) :
    runA s (xs ++ ys) =
      ⟨(runA (runA s xs).state ys).state,
        (runA s xs).toAgent ++ (runA (runA s xs).state ys).toAgent,
        (runA s xs).toTel ++ (runA (runA s xs).state ys).toTel⟩ := by
  induction xs generalizing s with
  | nil => simp [runA]
  | cons e es ih => simp [runA, ih, List.append_assoc]

theorem runB_append (s : ConnState) (xs ys : List Ev) :
    runB s (xs ++ ys) =
      ⟨(runB (runB s xs).state ys).state,
        (runB s xs).toAgent ++ (runB (runB s xs).state ys).toAgent,
        (runB s xs).toTel ++ (runB (runB s xs).state ys).toTel⟩ := by
  induction xs generalizing s with
  | nil => simp [runB]
  | cons e es ih => simp [runB, ih, List.append_assoc]

theorem stepA_dead (s : ConnState) (e : Ev) (h : dead s.agent = true) :
    dead (stepA s e).state.agent = true := by
  have hA : s.agent = .conn .CLOSING ∨ s.agent = .conn .CLOSED := by
    rcases hx : s.agent with _ | st
    · rw [hx] at h; exact absurd h (by simp [dead])
    · cases st with
      | CONNECTING => rw [hx] at h; exact absurd h (by simp [dead])
      | OPEN => rw [hx] at h; exact absurd h (by simp [dead])
      | CLOSING => exact Or.inl rfl
      | CLOSED => exact Or.inr rfl
  cases e with
  | tel m =>
      rcases m with _ | tm
      · simpa [stepA, telStepA] using h
      · rcases tm with ⟨a, b, c⟩ | p | _ | t
        · simpa [stepA, telStepA] using h
        · rcases hA with hA | hA <;> simp [stepA, telStepA, hA, dead]
        · rcases hA with hA | hA <;> simp [stepA, telStepA, hA, wsClose, dead]
        · simpa [stepA, telStepA] using h
  | telClose => simpa [stepA] using h
  | telError => simpa [stepA] using h
  | wsCreated => rcases hA with hA | hA <;> simp [stepA, hA, dead]
  | wsOpen => rcases hA with hA | hA <;> simp [stepA, hA, dead]
  | agentMsg m => simpa [stepA] using h
  | wsClosed => rcases hA with hA | hA <;> simp [stepA, hA, dead]

theorem stepB_dead (s : ConnState) (e : Ev) (h : dead s.agent = true) :
    dead (stepB s e).state.agent = true := by
  have hA : s.agent = .conn .CLOSING ∨ s.agent = .conn .CLOSED := by
    rcases hx : s.agent with _ | st
    · rw [hx] at h; exact absurd h (by simp [dead])
    · cases st with
      | CONNECTING => rw [hx] at h; exact absurd h (by simp [dead])
      | OPEN => rw [hx] at h; exact absurd h (by simp [dead])
      | CLOSING => exact Or.inl rfl
      | CLOSED => exact Or.inr rfl
  cases e with
  | tel m =>
      rcases m with _ | tm
      · simpa [stepB, telStepB] using h
      · rcases tm with ⟨a, b, c⟩ | p | _ | t
        · simpa [stepB, telStepB] using h
        · rcases hA with hA | hA <;> simp [stepB, telStepB, hA, dead]
        · rcases hA with hA | hA <;> simp [stepB, telStepB, hA, dead]
        · simpa [stepB, telStepB] using h
  | telClose => simpa [stepB] using h
  | telError => simpa [stepB] using h
  | wsCreated => rcases hA with hA | hA <;> simp [stepB, hA, dead]
  | wsOpen => rcases hA with hA | hA <;> simp [stepB, hA, dead]
  | agentMsg m => simpa [stepB] using h
  | wsClosed => rcases hA with hA | hA <;> simp [stepB, hA, dead]

theorem dead_not_open (a : AgentConn) (h : dead a = true) : isOpenC a = false := by
  rcases a with _ | st
  · rfl
  · cases st <;> first | rfl | exact absurd h (by simp [dead])

theorem stepA_open_exit (s : ConnState) (e : Ev) (h1 : isOpenC s.agent = true)
    (h2 : isOpenC (stepA s e).state.agent = false) :
    dead (stepA s e).state.agent = true := by
  have hA : s.agent = .conn .OPEN := by
    rcases hx : s.agent with _ | st
    · rw [hx] at h1; exact absurd h1 (by simp [isOpenC])
    · cases st with
      | OPEN => rfl
      | CONNECTING => rw [hx] at h1; exact absurd h1 (by simp [isOpenC])
      | CLOSING => rw [hx] at h1; exact absurd h1 (by simp [isOpenC])
      | CLOSED => rw [hx] at h1; exact absurd h1 (by simp [isOpenC])
  cases e with
  | tel m =>
      rcases m with _ | tm
      · rw [show (stepA s (.tel none)).state = s from rfl, hA] at h2
        exact absurd h2 (by simp [isOpenC])
      · rcases tm with ⟨a, b, c⟩ | p | _ | t
        · simp [stepA, telStepA, hA, isOpenC] at h2
        · simp [stepA, telStepA, hA, isOpenC] at h2
        · simp [stepA, telStepA, hA, wsClose, dead]
        · simp [stepA, telStepA, hA, isOpenC] at h2
  | telClose => simp [stepA, hA, isOpenC] at h2
  | telError => simp [stepA, hA, isOpenC] at h2
  | wsCreated => simp [stepA, hA, isOpenC] at h2
  | wsOpen => simp [stepA, hA, isOpenC] at h2
  | agentMsg m => simp [stepA, hA, isOpenC] at h2
  | wsClosed => simp [stepA, hA, dead]

theorem stepB_open_exit (s : ConnState) (e : Ev) (h1 : isOpenC s.agent = true)
    (h2 : isOpenC (stepB s e).state.agent = false) :
    dead (stepB s e).state.agent = true := by
  have hA : s.agent = .conn .OPEN := by
    rcases hx : s.agent with _ | st
    · rw [hx] at h1; exact absurd h1 (by simp [isOpenC])
    · cases st with
      | OPEN => rfl
      | CONNECTING => rw [hx] at h1; exact absurd h1 (by simp [isOpenC])
      | CLOSING => rw [hx] at h1; exact absurd h1 (by simp [isOpenC])
      | CLOSED => rw [hx] at h1; exact absurd h1 (by simp [isOpenC])
  cases e with
  | tel m =>
      rcases m with _ | tm
      · rw [show (stepB s (.tel none)).state = s from rfl, hA] at h2
        exact absurd h2 (by simp [isOpenC])
      · rcases tm with ⟨a, b, c⟩ | p | _ | t
        · simp [stepB, telStepB, hA, isOpenC] at h2
        · simp [stepB, telStepB, hA, isOpenC] at h2
        · simp [stepB, telStepB, hA, dead]
        · simp [stepB, telStepB, hA, isOpenC] at h2
  | telClose => simp [stepB, hA, isOpenC] at h2
  | telError => simp [stepB, hA, isOpenC] at h2
  | wsCreated => simp [stepB, hA, isOpenC] at h2
  | wsOpen => simp [stepB, hA, isOpenC] at h2
  | agentMsg m => simp [stepB, hA, isOpenC] at h2
  | wsClosed => simp [stepB, hA, dead]

theorem closeCountA_dead (evs : List Ev) : ∀ s : ConnState, dead s.agent = true →
    closeCountA s evs = 0 := by
  induction evs with
  | nil => intro s _; rfl
  | cons e es ih =>
      intro s h
      have h1 : isOpenC s.agent = false := dead_not_open _ h
      simp [closeCountA, h1, ih _ (stepA_dead s e h)]

theorem closeCountB_dead (evs : List Ev) : ∀ s : ConnState, dead s.agent = true →
    closeCountB s evs = 0 := by
  induction evs with
  | nil => intro s _; rfl
  | cons e es ih =>
      intro s h
      have h1 : isOpenC s.agent = false := dead_not_open _ h
      simp [closeCountB, h1, ih _ (stepB_dead s e h)]

theorem closeCountA_le_one (evs : List Ev) : ∀ s : ConnState,
    closeCountA s evs ≤ 1 := by
  induction evs with
  | nil => intro s; simp [closeCountA]
  | cons e es ih =>
      intro s
      by_cases hb : (isOpenC s.agent && !isOpenC (stepA s e).state.agent) = true
      · have hb' : isOpenC s.agent = true ∧ isOpenC (stepA s e).state.agent = false := by
          simpa using hb
        have hd : dead (stepA s e).state.agent = true :=
          stepA_open_exit s e hb'.1 hb'.2
        simp [closeCountA, hb, closeCountA_dead es _ hd]
      · simp only [closeCountA, if_neg hb, Nat.zero_add]
        exact ih _

theorem agentStepA_fst_no_chunk (s : ConnState) (m : Option AgentMsg) (p : String) :
    AgentOut.userAudioChunk p ∉ (agentStepA s m).1 := by
  rcases m with _ | am
  · simp [agentStepA]
  · cases am with
    | audioMsg c ab =>
        have hfst : (agentStepA s (some (.audioMsg c ab))).1 = [] := by
          simp only [agentStepA]
          split
          · split <;> rfl
          · rfl
        simp [hfst]
    | ping id? =>
        rcases id? with _ | n
        · simp [agentStepA]
        · by_cases hn : n = 0 <;> simp [agentStepA, hn]
    | conversation_initiation_metadata => simp [agentStepA]
    | agent_response t => simp [agentStepA]
    | user_transcript t => simp [agentStepA]
    | otherType t => simp [agentStepA]

theorem agentStepB_fst_nil (s : ConnState) (m : Option AgentMsg) :
    (agentStepB s m).1 = [] := by
  rcases m with _ | am
  · rfl
  · cases am with
    | audioMsg c ab =>
        simp only [agentStepB]
        split
        · split <;> rfl
        · rfl
    | ping id? => rfl
    | conversation_initiation_metadata => rfl
    | agent_response t => rfl
    | user_transcript t => rfl
    | otherType t => rfl

theorem stepA_no_chunk (s : ConnState) (e : Ev) (p : String)
    (h : s.agent ≠ .conn .OPEN) :
    AgentOut.userAudioChunk p ∉ (stepA s e).toAgent := by
  cases e with
  | tel m =>
      rcases m with _ | tm
      · simp [stepA, telStepA]
      · rcases tm with ⟨a, b, c⟩ | q | _ | t
        · simp [stepA, telStepA]
        · simp [stepA, telStepA, if_neg h]
        · rcases hA : s.agent with _ | st <;> simp [stepA, telStepA, hA]
        · simp [stepA, telStepA]
  | telClose => simp [stepA]
  | telError => simp [stepA]
  | wsCreated => rcases hA : s.agent with _ | st <;> simp [stepA, hA]
  | wsOpen =>
      rcases hA : s.agent with _ | st
      · simp [stepA, hA]
      · cases st <;> simp [stepA, hA, initConfigA]
  | agentMsg m => exact agentStepA_fst_no_chunk s m p
  | wsClosed => rcases hA : s.agent with _ | st <;> simp [stepA, hA]

theorem stepB_no_chunk (s : ConnState) (e : Ev) (p : String)
    (h : s.agent ≠ .conn .OPEN) :
    AgentOut.userAudioChunk p ∉ (stepB s e).toAgent := by
  cases e with
  | tel m =>
      rcases m with _ | tm
      · simp [stepB, telStepB]
      · rcases tm with ⟨a, b, c⟩ | q | _ | t
        · simp [stepB, telStepB]
        · simp [stepB, telStepB, if_neg h]
        · simp [stepB, telStepB, if_neg h]
        · simp [stepB, telStepB]
  | telClose => simp [stepB]
  | telError => simp [stepB]
  | wsCreated => rcases hA : s.agent with _ | st <;> simp [stepB, hA]
  | wsOpen =>
      rcases hA : s.agent with _ | st
      · simp [stepB, hA]
      · cases st <;> simp [stepB, hA, initConfigB]
  | agentMsg m => simp [stepB, agentStepB_fst_nil s m]
  | wsClosed => rcases hA : s.agent with _ | st <;> simp [stepB, hA]

theorem stepA_not_open_preserved (s : ConnState) (e : Ev) (he : e ≠ Ev.wsOpen)
    (h : s.agent ≠ .conn .OPEN) : (stepA s e).state.agent ≠ .conn .OPEN := by
  cases e with
  | tel m =>
      rcases m with _ | tm
      · exact h
      · rcases tm with ⟨a, b, c⟩ | q | _ | t
        · exact h
        · simpa [stepA, telStepA, if_neg h] using h
        · rcases hA : s.agent with _ | st
          · simp [stepA, telStepA, hA]
          · cases st <;> simp [stepA, telStepA, hA, wsClose]
        · exact h
  | telClose => exact h
  | telError => exact h
  | wsCreated =>
      rcases hA : s.agent with _ | st
      · simp [stepA, hA]
      · simpa [stepA, hA] using h
  | wsOpen => exact absurd rfl he
  | agentMsg m => exact h
  | wsClosed => rcases hA : s.agent with _ | st <;> simp [stepA, hA]

theorem stepB_not_open_preserved (s : ConnState) (e : Ev) (he : e ≠ Ev.wsOpen)
    (h : s.agent ≠ .conn .OPEN) : (stepB s e).state.agent ≠ .conn .OPEN := by
  cases e with
  | tel m =>
      rcases m with _ | tm
      · exact h
      · rcases tm with ⟨a, b, c⟩ | q | _ | t
        · exact h
        · simpa [stepB, telStepB, if_neg h] using h
        · simpa [stepB, telStepB, if_neg h] using h
        · exact h
  | telClose => exact h
  | telError => exact h
  | wsCreated =>
      rcases hA : s.agent with _ | st
      · simp [stepB, hA]
      · simpa [stepB, hA] using h
  | wsOpen => exact absurd rfl he
  | agentMsg m => exact h
  | wsClosed => rcases hA : s.agent with _ | st <;> simp [stepB, hA]

theorem runA_no_chunk (evs : List Ev) : ∀ (s : ConnState) (p : String),
    s.agent ≠ .conn .OPEN → Ev.wsOpen ∉ evs →
    AgentOut.userAudioChunk p ∉ (runA s evs).toAgent := by
  induction evs with
  | nil => intro s p _ _; simp [runA]
  | cons e es ih =>
      intro s p h hm
      have hne : e ≠ Ev.wsOpen := fun hc => hm (by rw [hc]; exact List.mem_cons_self _ _)
      have hms : Ev.wsOpen ∉ es := fun hc => hm (List.mem_cons_of_mem _ hc)
      intro hc
      rcases List.mem_append.mp (by simpa [runA] using hc) with hc1 | hc1
      · exact stepA_no_chunk s e p h hc1
      · exact ih (stepA s e).state p (stepA_not_open_preserved s e hne h) hms hc1

theorem runB_no_chunk (evs : List Ev) : ∀ (s : ConnState) (p : String),
    s.agent ≠ .conn .OPEN → Ev.wsOpen ∉ evs →
    AgentOut.userAudioChunk p ∉ (runB s evs).toAgent := by
  induction evs with
  | nil => intro s p _ _; simp [runB]
  | cons e es ih =>
      intro s p h hm
      have hne : e ≠ Ev.wsOpen := fun hc => hm (by rw [hc]; exact List.mem_cons_self _ _)
      have hms : Ev.wsOpen ∉ es := fun hc => hm (List.mem_cons_of_mem _ hc)
      intro hc
      rcases List.mem_append.mp (by simpa [runB] using hc) with hc1 | hc1
      · exact stepB_no_chunk s e p h hc1
      · exact ih (stepB s e).state p (stepB_not_open_preserved s e hne h) hms hc1

theorem closeCountB_le_one (evs : List Ev) : ∀ s : ConnState,
    closeCountB s evs ≤ 1 := by
  induction evs with
  | nil => intro s; simp [closeCountB]
  | cons e es ih =>
      intro s
      by_cases hb : (isOpenC s.agent && !isOpenC (stepB s e).state.agent) = true
      · have hb' : isOpenC s.agent = true ∧ isOpenC (stepB s e).state.agent = false := by
          simpa using hb
        have hd : dead (stepB s e).state.agent = true :=
          stepB_open_exit s e hb'.1 hb'.2
        simp [closeCountB, hb, closeCountB_dead es _ hd]
      · simp only [closeCountB, if_neg hb, Nat.zero_add]
        exact ih _

/-- Concrete session state with a known stream identifier and an open
agent connection, used by several witnesses. -/
def sOpenW : ConnState :=
  { session := ⟨some "S1", some "C1", none⟩, agent := .conn .OPEN,
    telOpen := true }

/-- Concrete session state in which a start event with custom parameters
prompt X and first message Y has been received and the agent socket is
still connecting. -/
def sConnW : ConnState :=
  { session := ⟨some "S1", some "C1", some ⟨some "X", some "Y"⟩⟩,
    agent := .conn .CONNECTING, telOpen := true }

/-- Concrete session state in which the received custom parameters carry
an empty prompt, with the agent socket still connecting. -/
def sConnEmptyW : ConnState :=
  { session := ⟨some "S1", some "C1", some ⟨some "", some "Y"⟩⟩,
    agent := .conn .CONNECTING, telOpen := true }

/-- C1: counterexample.  When the agent connection is created and opens
before any telephony start event, a media event arriving before start is
forwarded to the agent connection: its payload appears on the agent
trace even though the sequence contains no start event.  This refutes
the claim that payloads of pre-start media events are never forwarded. -/
theorem C1_pre_start_media_counterexample :
    (runA init [Ev.wsCreated, Ev.wsOpen,
        Ev.tel (some (.media "QUFBQQ=="))]).toAgent =
      [initConfigA none, .userAudioChunk "QUFBQQ=="] ∧
    AgentOut.userAudioChunk "QUFBQQ==" ∈
      (runA init [Ev.wsCreated, Ev.wsOpen,
        Ev.tel (some (.media "QUFBQQ=="))]).toAgent := by
  constructor
  · rfl
  · decide

/-- C1 (amended): the gating condition for a telephony media event is the
agent connection being open, not the start event having been received.
A media payload processed while the agent connection is not open is
dropped with no state change (so nothing is queued), and in any run in
which the agent connection never reaches open, no media payload at all
appears on the agent trace.  This holds for both implementations. -/
theorem C1_amended_media_gating :
    (∀ (s : ConnState) (p : String), s.agent ≠ .conn .OPEN →
        stepA s (.tel (some (.media p))) = ⟨s, [], []⟩) ∧
    (∀ (evs : List Ev) (p : String), Ev.wsOpen ∉ evs →
        AgentOut.userAudioChunk p ∉ (runA init evs).toAgent) ∧
    (∀ (s : ConnState) (p : String), s.agent ≠ .conn .OPEN →
        stepB s (.tel (some (.media p))) = ⟨s, [], []⟩) ∧
    (∀ (evs : List Ev) (p : String), Ev.wsOpen ∉ evs →
        AgentOut.userAudioChunk p ∉ (runB init evs).toAgent) := by
  refine ⟨?_, ?_, ?_, ?_⟩
  · intro s p h; simp [stepA, telStepA, if_neg h]
  · intro evs p h; exact runA_no_chunk evs init p (by simp [init]) h
  · intro s p h; simp [stepB, telStepB, if_neg h]
  · intro evs p h; exact runB_no_chunk evs init p (by simp [init]) h

/-- C1 (amended), witness at concrete inputs. -/
theorem C1_amended_media_gating_witness :
    stepA init (.tel (some (.media "QQ=="))) = ⟨init, [], []⟩ ∧
    AgentOut.userAudioChunk "QQ==" ∉
      (runA init [Ev.wsCreated, Ev.tel (some (.media "QQ=="))]).toAgent ∧
    stepB init (.tel (some (.media "QQ=="))) = ⟨init, [], []⟩ :=
  ⟨C1_amended_media_gating.1 init "QQ==" (by decide),
   C1_amended_media_gating.2.1 [Ev.wsCreated, Ev.tel (some (.media "QQ=="))]
     "QQ==" (by decide),
   C1_amended_media_gating.2.2.1 init "QQ==" (by decide)⟩

/-- C2: counterexample.  In `src/unnamed/part_000` the agent message
dispatch has no ping case: a ping carrying event identifier 42, received
on an open connection, produces no pong at all (only the initial
configuration frame is ever on the trace), refuting the claim that every
such ping yields exactly one pong. -/
theorem C2_ping_counterexample :
    (runB init [Ev.wsCreated, Ev.wsOpen,
        Ev.agentMsg (some (.ping (some 42)))]).toAgent = [initConfigB none] ∧
    AgentOut.pong 42 ∉
      (runB init [Ev.wsCreated, Ev.wsOpen,
        Ev.agentMsg (some (.ping (some 42)))]).toAgent := by
  constructor
  · rfl
  · decide

/-- C2 (amended): in `src/outbound.js`, every agent ping whose event
identifier is truthy (present and nonzero) yields exactly one pong with
the same identifier, emitted inline by that step, hence placed on the
trace before every frame produced by subsequent occurrences; in
`src/unnamed/part_000` a ping produces no frame at all. -/
theorem C2_amended_ping_pong :
    (∀ (s : ConnState) (n : Nat), n ≠ 0 →
        stepA s (.agentMsg (some (.ping (some n)))) = ⟨s, [.pong n], []⟩) ∧
    (∀ (s : ConnState) (evs rest : List Ev) (n : Nat), n ≠ 0 →
        (runA s (evs ++ Ev.agentMsg (some (.ping (some n))) :: rest)).toAgent =
          (runA s evs).toAgent ++
            AgentOut.pong n :: (runA (runA s evs).state rest).toAgent) ∧
    (∀ (s : ConnState) (m : Option Nat),
        stepB s (.agentMsg (some (.ping m))) = ⟨s, [], []⟩) := by
  refine ⟨?_, ?_, ?_⟩
  · intro s n hn; simp [stepA, agentStepA, hn]
  · intro s evs rest n hn
    rw [runA_append]
    simp [runA, stepA, agentStepA, hn]
  · intro s m; rfl

/-- C2 (amended), witness at concrete inputs. -/
theorem C2_amended_ping_pong_witness :
    stepA init (.agentMsg (some (.ping (some 42)))) = ⟨init, [.pong 42], []⟩ ∧
    (runA init ([Ev.wsCreated] ++
        Ev.agentMsg (some (.ping (some 42))) :: [])).toAgent =
      (runA init [Ev.wsCreated]).toAgent ++
        AgentOut.pong 42 :: (runA (runA init [Ev.wsCreated]).state []).toAgent :=
  ⟨C2_amended_ping_pong.1 init 42 (by decide),
   C2_amended_ping_pong.2.1 init [Ev.wsCreated] [] 42 (by decide)⟩

/-- C3: counterexample.  Neither implementation registers a close handler
on the telephony socket, and the error handler only logs: after the
telephony stream closes while the agent connection is open, the agent
connection is still open in both implementations, refuting the claim
that closing the telephony stream tears the session down and closes the
agent connection. -/
theorem C3_teardown_counterexample :
    (runA init [Ev.wsCreated, Ev.wsOpen, Ev.telClose]).state.agent =
      .conn .OPEN ∧
    (runA init [Ev.wsCreated, Ev.wsOpen, Ev.telClose]).state.telOpen = false ∧
    (runB init [Ev.wsCreated, Ev.wsOpen, Ev.telClose]).state.agent =
      .conn .OPEN := ⟨rfl, rfl, rfl⟩

/-- C3 (amended): no teardown is performed when the telephony stream
closes or errors.  In both implementations the telephony close event
leaves the whole session state (in particular the agent connection)
untouched apart from the transport itself being gone, and the telephony
error event changes nothing at all; the agent connection is closed only
by a stop event or by agent-side closure. -/
theorem C3_amended_no_teardown :
    (∀ s : ConnState, stepA s .telClose = ⟨{ s with telOpen := false }, [], []⟩) ∧
    (∀ s : ConnState, stepA s .telError = ⟨s, [], []⟩) ∧
    (∀ s : ConnState, stepB s .telClose = ⟨{ s with telOpen := false }, [], []⟩) ∧
    (∀ s : ConnState, stepB s .telError = ⟨s, [], []⟩) :=
  ⟨fun _ => rfl, fun _ => rfl, fun _ => rfl, fun _ => rfl⟩

/-- C4: counterexample.  A start event carrying custom parameters whose
prompt and first message are the empty string is received before the
agent connection opens, yet the initialization frame carries the fixed
fallback defaults instead of the supplied values, refuting the stated
equivalence (start before open does not imply the frame contains the
values from the custom parameters). -/
theorem C4_init_frame_counterexample :
    (runA init [Ev.tel (some (.start "S1" "C1" (some ⟨some "", some ""⟩))),
        Ev.wsCreated, Ev.wsOpen]).toAgent =
      [AgentOut.initConfig promptDefaultA firstDefaultA] ∧
    promptDefaultA ≠ "" ∧ firstDefaultA ≠ "" := by
  refine ⟨rfl, ?_, ?_⟩ <;> decide

/-- C4 (amended): the initialization frame sent when the agent connection
reaches open is a deterministic function of the session state at that
moment: each field equals the corresponding custom parameter when a
start event carrying a truthy (non-empty) value for it was received
before open, and the fixed fallback default otherwise (no start before
open, missing field, or empty value). -/
theorem C4_amended_init_frame :
    (∀ s : ConnState, s.agent = .conn .CONNECTING →
        stepA s .wsOpen =
          ⟨{ s with agent := .conn .OPEN },
            [initConfigA s.session.customParameters], []⟩) ∧
    (∀ (s : ConnState) (p f : String), s.agent = .conn .CONNECTING →
        s.session.customParameters = some ⟨some p, some f⟩ → p ≠ "" → f ≠ "" →
        (stepA s .wsOpen).toAgent = [AgentOut.initConfig p f]) ∧
    (∀ s : ConnState, s.agent = .conn .CONNECTING →
        s.session.customParameters = none →
        (stepA s .wsOpen).toAgent =
          [AgentOut.initConfig promptDefaultA firstDefaultA]) ∧
    (∀ s : ConnState, s.agent = .conn .CONNECTING →
        stepB s .wsOpen =
          ⟨{ s with agent := .conn .OPEN },
            [initConfigB s.session.customParameters], []⟩) := by
  refine ⟨?_, ?_, ?_, ?_⟩
  · intro s h; simp [stepA, h]
  · intro s p f h hcp hp hf
    simp [stepA, h, hcp, initConfigA, jsOr, hp, hf]
  · intro s h hcp; simp [stepA, h, hcp, initConfigA, jsOr]
  · intro s h; simp [stepB, h]

/-- C4 (amended), witness: the scenario of the specification, where a
start event with prompt X and first message Y precedes open. -/
theorem C4_amended_init_frame_witness :
    (stepA sConnW .wsOpen).toAgent = [AgentOut.initConfig "X" "Y"] :=
  C4_amended_init_frame.2.1 sConnW "X" "Y" rfl rfl (by decide) (by decide)

/-- C5: counterexample.  In `src/unnamed/part_000`, an audio message
carrying its payload only in the variant field (no primary chunk field)
is dropped even though the stream identifier is known: the run emits no
telephony frame, refuting the claim that every audio message received
while the stream identifier is known produces exactly one outbound
telephony frame. -/
theorem C5_audio_variant_counterexample :
    (runB init [Ev.tel (some (.start "S1" "C1" none)), Ev.wsCreated,
        Ev.wsOpen, Ev.agentMsg (some (.audioMsg none (some "AAAA")))]).toTel =
      [] ∧
    (runB init [Ev.tel (some (.start "S1" "C1" none)), Ev.wsCreated,
        Ev.wsOpen,
        Ev.agentMsg (some (.audioMsg none (some "AAAA")))]).state.session.streamSid =
      some "S1" := ⟨rfl, rfl⟩

/-- C5 (amended): in `src/outbound.js`, every audio message received
while the stream identifier is truthy produces exactly one telephony
media frame tagged with that identifier, whose payload is the primary
chunk field with the JavaScript or-fallback to the variant field, and an
audio message received while the stream identifier is not truthy is
dropped (with a warning log).  In `src/unnamed/part_000` a frame is
produced only when additionally the primary chunk field is truthy, and
an audio message without a truthy chunk field is dropped even when the
stream identifier is known. -/
theorem C5_amended_audio_relay :
    (∀ (s : ConnState) (sid : String) (c ab : Option String),
        s.session.streamSid = some sid → sid ≠ "" →
        stepA s (.agentMsg (some (.audioMsg c ab))) =
          ⟨s, [], [⟨sid, jsOrOpt c ab⟩]⟩) ∧
    (∀ (s : ConnState) (c ab : Option String),
        truthyS s.session.streamSid = false →
        stepA s (.agentMsg (some (.audioMsg c ab))) = ⟨s, [], []⟩) ∧
    (∀ (s : ConnState) (sid chunk : String) (ab : Option String),
        s.session.streamSid = some sid → sid ≠ "" → chunk ≠ "" →
        stepB s (.agentMsg (some (.audioMsg (some chunk) ab))) =
          ⟨s, [], [⟨sid, some chunk⟩]⟩) ∧
    (∀ (s : ConnState) (c ab : Option String), truthyS c = false →
        stepB s (.agentMsg (some (.audioMsg c ab))) = ⟨s, [], []⟩) := by
  refine ⟨?_, ?_, ?_, ?_⟩
  · intro s sid c ab hs hsid
    simp [stepA, agentStepA, hs, truthyS, hsid]
  · intro s c ab h
    simp [stepA, agentStepA, h]
  · intro s sid chunk ab hs hsid hc
    simp [stepB, agentStepB, hs, truthyS, hsid, hc]
  · intro s c ab h
    simp [stepB, agentStepB, h]

/-- C5 (amended), witness: the scenario of the specification, an audio
chunk AAAA relayed while the stream identifier is S1. -/
theorem C5_amended_audio_relay_witness :
    stepA sOpenW (.agentMsg (some (.audioMsg (some "AAAA") none))) =
      ⟨sOpenW, [], [⟨"S1", some "AAAA"⟩]⟩ ∧
    stepB sOpenW (.agentMsg (some (.audioMsg (some "AAAA") none))) =
      ⟨sOpenW, [], [⟨"S1", some "AAAA"⟩]⟩ :=
  ⟨C5_amended_audio_relay.1 sOpenW "S1" (some "AAAA") none rfl (by decide),
   C5_amended_audio_relay.2.2.1 sOpenW "S1" "AAAA" none rfl (by decide)
     (by decide)⟩

/-- C6: counterexample.  The two implementations are not equivalent: on
the same occurrence sequence they emit different initialization frames
(the fallback strings differ), and on a ping with an event identifier
one emits a pong while the other emits nothing. -/
theorem C6_equivalence_counterexample :
    (runA init [Ev.wsCreated, Ev.wsOpen]).toAgent ≠
      (runB init [Ev.wsCreated, Ev.wsOpen]).toAgent ∧
    (runA init [Ev.wsCreated, Ev.wsOpen,
        Ev.agentMsg (some (.ping (some 7)))]).toAgent.length = 2 ∧
    (runB init [Ev.wsCreated, Ev.wsOpen,
        Ev.agentMsg (some (.ping (some 7)))]).toAgent.length = 1 := by
  refine ⟨?_, rfl, rfl⟩
  decide

/-- C6 (amended): the two implementations agree only on a common core
and differ elsewhere.  They produce identical results on every telephony
message other than stop, on stop when the agent socket is not in the
connecting state, on audio messages whose primary chunk field is truthy,
on agent messages that are neither audio nor ping, on connection open
when both custom parameters were supplied non-empty, and on all
non-message occurrences.  (They differ on pings, on variant-schema
audio, on fallback defaults, and on stop while connecting.) -/
theorem C6_amended_partial_equivalence :
    (∀ (s : ConnState) (m : Option TelMsg), m ≠ some .stop →
        telStepA s m = telStepB s m) ∧
    (∀ s : ConnState, s.agent ≠ .conn .CONNECTING →
        telStepA s (some .stop) = telStepB s (some .stop)) ∧
    (∀ (s : ConnState) (c ab : Option String), truthyS c = true →
        agentStepA s (some (.audioMsg c ab)) =
          agentStepB s (some (.audioMsg c ab))) ∧
    (∀ (s : ConnState) (m : Option AgentMsg),
        (∀ c ab, m ≠ some (.audioMsg c ab)) → (∀ i, m ≠ some (.ping i)) →
        agentStepA s m = agentStepB s m) ∧
    (∀ (s : ConnState) (p f : String),
        s.session.customParameters = some ⟨some p, some f⟩ → p ≠ "" → f ≠ "" →
        stepA s .wsOpen = stepB s .wsOpen) ∧
    (∀ s : ConnState, stepA s .telClose = stepB s .telClose ∧
        stepA s .telError = stepB s .telError ∧
        stepA s .wsCreated = stepB s .wsCreated ∧
        stepA s .wsClosed = stepB s .wsClosed) := by
  refine ⟨?_, ?_, ?_, ?_, ?_, ?_⟩
  · intro s m hm
    rcases m with _ | tm
    · rfl
    · rcases tm with ⟨a, b, c⟩ | p | _ | t
      · rfl
      · rfl
      · exact absurd rfl hm
      · rfl
  · rintro ⟨sess, a, t⟩ h
    rcases a with _ | st
    · simp [telStepA, telStepB]
    · cases st with
      | CONNECTING => exact absurd rfl h
      | OPEN => simp [telStepA, telStepB, wsClose]
      | CLOSING => simp [telStepA, telStepB, wsClose]
      | CLOSED => simp [telStepA, telStepB, wsClose]
  · rintro ⟨⟨ssid, scid, cp⟩, a, t⟩ c ab hc
    rcases c with _ | chunk
    · exact absurd hc (by simp [truthyS])
    · have hch : chunk ≠ "" := by simpa [truthyS] using hc
      rcases ssid with _ | sid
      · simp [agentStepA, agentStepB, truthyS]
      · by_cases hsid : sid = ""
        · simp [agentStepA, agentStepB, truthyS, hsid]
        · simp [agentStepA, agentStepB, truthyS, hsid, hch, jsOrOpt]
  · intro s m hma hmp
    rcases m with _ | am
    · rfl
    · cases am with
      | audioMsg c ab => exact absurd rfl (hma c ab)
      | ping i => exact absurd rfl (hmp i)
      | conversation_initiation_metadata => rfl
      | agent_response t => rfl
      | user_transcript t => rfl
      | otherType t => rfl
  · intro s p f hcp hp hf
    rcases hA : s.agent with _ | st
    · simp [stepA, stepB, hA]
    · cases st with
      | CONNECTING =>
          simp [stepA, stepB, hA, hcp, initConfigA, initConfigB, jsOr, hp, hf]
      | OPEN => simp [stepA, stepB, hA]
      | CLOSING => simp [stepA, stepB, hA]
      | CLOSED => simp [stepA, stepB, hA]
  · intro s
    refine ⟨rfl, rfl, ?_, ?_⟩ <;>
      rcases hA : s.agent with _ | st <;> simp [stepA, stepB, hA]

/-- C6 (amended), witness at concrete inputs. -/
theorem C6_amended_partial_equivalence_witness :
    telStepA sOpenW (some (.media "QQ==")) = telStepB sOpenW (some (.media "QQ==")) ∧
    telStepA sOpenW (some .stop) = telStepB sOpenW (some .stop) ∧
    agentStepA sOpenW (some (.audioMsg (some "AAAA") none)) =
      agentStepB sOpenW (some (.audioMsg (some "AAAA") none)) ∧
    agentStepA sOpenW (some .conversation_initiation_metadata) =
      agentStepB sOpenW (some .conversation_initiation_metadata) ∧
    stepA sConnW .wsOpen = stepB sConnW .wsOpen :=
  ⟨C6_amended_partial_equivalence.1 sOpenW (some (.media "QQ==")) (by decide),
   C6_amended_partial_equivalence.2.1 sOpenW (by decide),
   C6_amended_partial_equivalence.2.2.1 sOpenW (some "AAAA") none (by decide),
   C6_amended_partial_equivalence.2.2.2.1 sOpenW
     (some .conversation_initiation_metadata) (by intro c ab; simp)
     (by intro i; simp),
   C6_amended_partial_equivalence.2.2.2.2.1 sConnW "X" "Y" rfl (by decide)
     (by decide)⟩

/-- C7: for every telephony media event, in both implementations, the
payload is forwarded verbatim as a user audio chunk message exactly when
the agent connection is in the open state and otherwise dropped with no
state change and no error frame; moreover no user audio chunk ever
reaches the agent trace in a run in which the agent connection never
reaches the open state. -/
theorem C7_media_forwarding :
    (∀ (s : ConnState) (p : String),
        stepA s (.tel (some (.media p))) =
          if s.agent = .conn .OPEN then ⟨s, [.userAudioChunk p], []⟩
          else ⟨s, [], []⟩) ∧
    (∀ (s : ConnState) (p : String),
        stepB s (.tel (some (.media p))) =
          if s.agent = .conn .OPEN then ⟨s, [.userAudioChunk p], []⟩
          else ⟨s, [], []⟩) ∧
    (∀ (s : ConnState) (evs : List Ev) (p : String),
        s.agent ≠ .conn .OPEN → Ev.wsOpen ∉ evs →
        AgentOut.userAudioChunk p ∉ (runA s evs).toAgent) ∧
    (∀ (s : ConnState) (evs : List Ev) (p : String),
        s.agent ≠ .conn .OPEN → Ev.wsOpen ∉ evs →
        AgentOut.userAudioChunk p ∉ (runB s evs).toAgent) := by
  refine ⟨fun s p => rfl, fun s p => rfl, ?_, ?_⟩
  · intro s evs p h hm; exact runA_no_chunk evs s p h hm
  · intro s evs p h hm; exact runB_no_chunk evs s p h hm

/-- C7, witness at concrete inputs. -/
theorem C7_media_forwarding_witness :
    stepA sOpenW (.tel (some (.media "QQ=="))) =
      (if sOpenW.agent = .conn .OPEN
        then (⟨sOpenW, [.userAudioChunk "QQ=="], []⟩ : StepOut)
        else ⟨sOpenW, [], []⟩) ∧
    AgentOut.userAudioChunk "QQ==" ∉
      (runA init [Ev.wsCreated, Ev.tel (some (.media "QQ=="))]).toAgent :=
  ⟨C7_media_forwarding.1 sOpenW "QQ==",
   C7_media_forwarding.2.2.1 init [Ev.wsCreated, Ev.tel (some (.media "QQ=="))]
     "QQ==" (by decide) (by decide)⟩

/-- C8: on a telephony stop event received while the agent connection is
open, both implementations start closing the agent connection, and over
every occurrence sequence (in particular one containing two stop
events) the agent connection leaves the open state at most once. -/
theorem C8_stop_close_once :
    (∀ s : ConnState, s.agent = .conn .OPEN →
        (stepA s (.tel (some .stop))).state.agent = .conn .CLOSING) ∧
    (∀ (s : ConnState) (evs : List Ev), closeCountA s evs ≤ 1) ∧
    (∀ s : ConnState, s.agent = .conn .OPEN →
        (stepB s (.tel (some .stop))).state.agent = .conn .CLOSING) ∧
    (∀ (s : ConnState) (evs : List Ev), closeCountB s evs ≤ 1) := by
  refine ⟨?_, fun s evs => closeCountA_le_one evs s, ?_,
    fun s evs => closeCountB_le_one evs s⟩
  · intro s h; simp [stepA, telStepA, h, wsClose]
  · intro s h; simp [stepB, telStepB, h]

/-- C8, witness at concrete inputs, including a sequence with two stop
events. -/
theorem C8_stop_close_once_witness :
    (stepA sOpenW (.tel (some .stop))).state.agent = .conn .CLOSING ∧
    closeCountA sOpenW [Ev.tel (some .stop), Ev.tel (some .stop)] ≤ 1 ∧
    (stepB sOpenW (.tel (some .stop))).state.agent = .conn .CLOSING :=
  ⟨C8_stop_close_once.1 sOpenW rfl,
   C8_stop_close_once.2.1 sOpenW [Ev.tel (some .stop), Ev.tel (some .stop)],
   C8_stop_close_once.2.2.1 sOpenW rfl⟩

/-- C9: a malformed (unparseable) frame on either stream, in both
implementations, is caught by the surrounding try block: it produces no
outbound frame, leaves the session state (including both transports)
exactly unchanged, and the rest of the run proceeds exactly as if the
malformed frame had not arrived. -/
theorem C9_malformed_harmless :
    (∀ s : ConnState, stepA s (.tel none) = ⟨s, [], []⟩) ∧
    (∀ s : ConnState, stepA s (.agentMsg none) = ⟨s, [], []⟩) ∧
    (∀ (s : ConnState) (evs : List Ev),
        runA s (Ev.tel none :: evs) = runA s evs) ∧
    (∀ (s : ConnState) (evs : List Ev),
        runA s (Ev.agentMsg none :: evs) = runA s evs) ∧
    (∀ s : ConnState, stepB s (.tel none) = ⟨s, [], []⟩) ∧
    (∀ s : ConnState, stepB s (.agentMsg none) = ⟨s, [], []⟩) ∧
    (∀ (s : ConnState) (evs : List Ev),
        runB s (Ev.tel none :: evs) = runB s evs) ∧
    (∀ (s : ConnState) (evs : List Ev),
        runB s (Ev.agentMsg none :: evs) = runB s evs) := by
  refine ⟨fun s => rfl, fun s => rfl, ?_, ?_, fun s => rfl, fun s => rfl,
    ?_, ?_⟩ <;>
    intro s evs <;>
    simp [runA, runB, stepA, stepB, telStepA, telStepB, agentStepA, agentStepB]

/-- C10: when the custom parameters received from the start event carry a
falsy prompt or first message (absent field or empty string), the
initialization frame built at connection open uses the fixed fallback
default for that field, in both implementations. -/
theorem C10_falsy_params_fallback :
    (∀ (s : ConnState) (cp : Params), s.agent = .conn .CONNECTING →
        s.session.customParameters = some cp →
        (cp.prompt = none ∨ cp.prompt = some "") →
        (stepA s .wsOpen).toAgent =
          [AgentOut.initConfig promptDefaultA
            (jsOr cp.first_message firstDefaultA)]) ∧
    (∀ (s : ConnState) (cp : Params), s.agent = .conn .CONNECTING →
        s.session.customParameters = some cp →
        (cp.first_message = none ∨ cp.first_message = some "") →
        (stepA s .wsOpen).toAgent =
          [AgentOut.initConfig (jsOr cp.prompt promptDefaultA)
            firstDefaultA]) ∧
    (∀ (s : ConnState) (cp : Params), s.agent = .conn .CONNECTING →
        s.session.customParameters = some cp →
        (cp.prompt = none ∨ cp.prompt = some "") →
        (stepB s .wsOpen).toAgent =
          [AgentOut.initConfig promptDefaultB
            (jsOr cp.first_message firstDefaultB)]) ∧
    (∀ (s : ConnState) (cp : Params), s.agent = .conn .CONNECTING →
        s.session.customParameters = some cp →
        (cp.first_message = none ∨ cp.first_message = some "") →
        (stepB s .wsOpen).toAgent =
          [AgentOut.initConfig (jsOr cp.prompt promptDefaultB)
            firstDefaultB]) := by
  refine ⟨?_, ?_, ?_, ?_⟩ <;>
    intro s cp h hcp hd <;>
    rcases hd with hd | hd <;>
    simp [stepA, stepB, h, hcp, initConfigA, initConfigB, jsOr, hd]

/-- C10, witness: an empty prompt with a non-empty first message. -/
theorem C10_falsy_params_fallback_witness :
    (stepA sConnEmptyW .wsOpen).toAgent =
      [AgentOut.initConfig promptDefaultA
        (jsOr (some "Y") firstDefaultA)] ∧
    (stepB sConnEmptyW .wsOpen).toAgent =
      [AgentOut.initConfig promptDefaultB
        (jsOr (some "Y") firstDefaultB)] :=
  ⟨C10_falsy_params_fallback.1 sConnEmptyW ⟨some "", some "Y"⟩ rfl rfl
     (Or.inr rfl),
   C10_falsy_params_fallback.2.2.1 sConnEmptyW ⟨some "", some "Y"⟩ rfl rfl
     (Or.inr rfl)⟩

end OutboundRelay
